import Mathlib

/-!
Verification of the `FacialDetectionModel` class from `src/tfmodel.ipynb`.

The notebook defines a single class gluing together Keras framework calls:
`__init__`, `prepare_dataset`, `build_model`, `train`,
`plot_training_history`, `run_tensorboard`.  This file shallowly embeds the
data model, the per-method behaviour (as pure state-passing functions, with
framework calls as explicit parameters), and the error-propagation structure
(framework calls modelled as `Except`-returning oracles), and proves the
specification claims against that embedding.

Numeric embedding entries pass through the class untouched (`np.array` is a
container conversion), so they are modelled with `Int` scalars; the exact
scalar type is never inspected by the code.  Configuration constants written
as decimal literals in the source (`1e-3`, `0.4`, ...) are modelled as the
corresponding `Rat` values.
-/

/-- A dataset split as accessed by `prepare_dataset`: the notebook reads
`dataset['train']['embedding']`, `dataset['train']['label']` (and the same
for `'test'`). -/
structure Split where
  embedding : List (List Int)
  label : List Nat
deriving DecidableEq, Repr

/-- The hub dataset as consumed by the class: a `train` and a `test` split. -/
structure Dataset where
  train : Split
  test : Split
deriving DecidableEq, Repr

/-- Result of `prepare_dataset`: the tuple `X_train, y_train, X_test, y_test`
after one-hot encoding the labels. -/
structure PreparedData where
  X_train : List (List Int)
  y_train : List (List Nat)
  X_test : List (List Int)
  y_test : List (List Nat)
deriving DecidableEq, Repr

/-- `tf.keras.utils.to_categorical(l, num_classes)` for a single integer
label: a vector of length `num_classes` holding `1` at index `l` and `0`
elsewhere (external framework call, modelled from its documented
semantics). -/
def to_categorical (num_classes : Nat) (l : Nat) : List Nat :=
  (List.range num_classes).map (fun i => if i = l then 1 else 0)

/-- `FacialDetectionModel.prepare_dataset` (notebook lines 44-61): converts
the split columns to arrays and one-hot encodes the train and test labels
with the instance's class count. -/
def prepare_dataset (num_classes : Nat) (d : Dataset) : PreparedData :=
  { X_train := d.train.embedding
    y_train := d.train.label.map (to_categorical num_classes)
    X_test := d.test.embedding
    y_test := d.test.label.map (to_categorical num_classes) }

/-- `v` is the one-hot encoding of label `l` among `n` classes: length `n`,
entry `1` exactly at index `l`, `0` at every other index. -/
def isOneHot (n l : Nat) (v : List Nat) : Prop :=
  v.length = n ∧ v.getD l 0 = 1 ∧
    ∀ i, i < v.length → v.getD i 0 = (if i = l then 1 else 0)

theorem to_categorical_length (n l : Nat) : (to_categorical n l).length = n := by
  simp [to_categorical]

theorem to_categorical_isOneHot (n l : Nat) (hl : l < n) :
    isOneHot n l (to_categorical n l) := by
  have hall : ∀ i, i < (to_categorical n l).length →
      (to_categorical n l).getD i 0 = (if i = l then 1 else 0) := by
    intro i hi
    rw [to_categorical_length] at hi
    simp [to_categorical, List.getD_eq_getElem?_getD, List.getElem?_map,
      List.getElem?_range, hi]
  refine ⟨to_categorical_length n l, ?_, hall⟩
  have := hall l (by rw [to_categorical_length]; exact hl)
  simpa using this

/-- C1: for every integer label `l` with `0 ≤ l < num_classes`,
`prepare_dataset` encodes `l` as a one-hot vector of length `num_classes`
with a single `1` at index `l` and `0` elsewhere, and applies this encoding
to every train label and every test label. -/
theorem prepare_dataset_one_hot (num_classes : Nat) (d : Dataset) (l : Nat)
    (hl : l < num_classes) :
    isOneHot num_classes l (to_categorical num_classes l) ∧
    (prepare_dataset num_classes d).y_train
      = d.train.label.map (to_categorical num_classes) ∧
    (prepare_dataset num_classes d).y_test
      = d.test.label.map (to_categorical num_classes) ∧
    (∀ i, i < d.train.label.length →
      (prepare_dataset num_classes d).y_train.getD i []
        = to_categorical num_classes (d.train.label.getD i 0)) ∧
    (∀ i, i < d.test.label.length →
      (prepare_dataset num_classes d).y_test.getD i []
        = to_categorical num_classes (d.test.label.getD i 0)) := by
  refine ⟨to_categorical_isOneHot num_classes l hl, rfl, rfl, ?_, ?_⟩ <;>
    intro i hi <;>
    simp [prepare_dataset, List.getD_eq_getElem?_getD, List.getElem?_map,
      List.getElem?_eq_getElem hi]

/-- A small concrete dataset used to instantiate hypothesis-bearing
theorems. -/
def ds0 : Dataset :=
  ⟨⟨[[5], [7]], [0, 1]⟩, ⟨[[9]], [1]⟩⟩

theorem prepare_dataset_one_hot_witness :
    isOneHot 2 1 (to_categorical 2 1) ∧
    (prepare_dataset 2 ds0).y_train = ds0.train.label.map (to_categorical 2) ∧
    (prepare_dataset 2 ds0).y_test = ds0.test.label.map (to_categorical 2) ∧
    (∀ i, i < ds0.train.label.length →
      (prepare_dataset 2 ds0).y_train.getD i []
        = to_categorical 2 (ds0.train.label.getD i 0)) ∧
    (∀ i, i < ds0.test.label.length →
      (prepare_dataset 2 ds0).y_test.getD i []
        = to_categorical 2 (ds0.test.label.getD i 0)) :=
  prepare_dataset_one_hot 2 ds0 1 (by decide)

/-- A Keras layer as configured by `build_model` (notebook lines 63-80):
input layer, dense layer (units, activation, optional L2 regularization
factor), or dropout layer (rate). -/
inductive Layer where
  | input (shape : List Nat)
  | dense (units : Nat) (activation : String) (l2 : Option Rat)
  | dropout (rate : Rat)
deriving DecidableEq, Repr

/-- The `optimizers.Adam(learning_rate=..., clipnorm=1.0)` configuration. -/
structure Optimizer where
  learning_rate : Rat
  clipnorm : Rat
deriving DecidableEq, Repr

/-- The compiled Sequential model held in `self.model`: its layer list and
the arguments of `compile` (optimizer, loss, metric names). -/
structure ModelState where
  seq : List Layer
  optimizer : Optimizer
  loss : String
  metrics : List String
deriving DecidableEq, Repr

/-- The layer list passed to `models.Sequential` in `build_model`. -/
def build_model_layers (input_shape : List Nat) (num_classes : Nat) : List Layer :=
  [Layer.input input_shape,
   Layer.dense 264 "relu" (some (1 / 10000)),
   Layer.dropout (4 / 10),
   Layer.dense 128 "relu" (some (1 / 10000)),
   Layer.dropout (4 / 10),
   Layer.dense 64 "relu" (some (1 / 10000)),
   Layer.dropout (3 / 10),
   Layer.dense num_classes "softmax" none]

/-- The model state `build_model` assembles and compiles for the given input
shape, class count and learning rate. -/
def mkModelState (input_shape : List Nat) (num_classes : Nat) (lr : Rat) : ModelState :=
  ModelState.mk (build_model_layers input_shape num_classes)
    (Optimizer.mk lr 1) "categorical_crossentropy"
    ["accuracy", "precision", "recall", "auc"]

/-- Python default of `build_model`'s `learning_rate` parameter (`1e-3`). -/
def default_learning_rate : Rat := 1 / 1000

/-- The instance state of `FacialDetectionModel`: the four attributes set in
`__init__` (`self.model = None`, `self.input_shape`, `self.num_classes`,
`self.log_dir`). -/
structure FDM where
  model : Option ModelState
  input_shape : List Nat
  num_classes : Nat
  log_dir : String
deriving DecidableEq, Repr

/-- `FacialDetectionModel.build_model` as a state transformer: stores the
assembled and compiled model in `self.model` (the `print(summary())` call is
output only). -/
def build_model (self : FDM) (lr : Rat) : FDM :=
  FDM.mk (some (mkModelState self.input_shape self.num_classes lr))
    self.input_shape self.num_classes self.log_dir

/-- Number of units of a dense layer (`None` for input/dropout layers). -/
def layerUnits : Layer → Option Nat
  | Layer.dense u _ _ => some u
  | _ => none

/-- Width of the final layer of a layer list. -/
def outputWidth (ls : List Layer) : Option Nat :=
  match ls.getLast? with
  | some l => layerUnits l
  | none => none

/-- C2: the final layer of the model assembled by `build_model` is the dense
softmax layer of width `num_classes`, for every input shape, class count and
learning rate the model is constructed with. -/
theorem build_model_output_width (input_shape : List Nat) (num_classes : Nat) (lr : Rat) :
    outputWidth ((build_model (FDM.mk none input_shape num_classes "./logs") lr).model.getD
        (mkModelState input_shape num_classes lr)).seq = some num_classes ∧
    outputWidth (build_model_layers input_shape num_classes) = some num_classes := by
  constructor <;> rfl

/-- `os.path.join` for the two-argument POSIX case used in the notebook. -/
def pathJoin (a b : String) : String :=
  if a = "" then b else if a.endsWith "/" then a ++ b else a ++ "/" ++ b

/-- A training callback as configured in `train`'s `callbacks_list`
(notebook lines 117-146). -/
inductive Callback where
  | earlyStopping (monitor : String) (patience : Nat) (restore_best_weights : Bool)
  | reduceLROnPlateau (monitor : String) (factor : Rat) (patience : Nat) (min_lr : Rat)
  | tensorBoard (log_dir : String) (histogram_freq : Nat) (profile_batch : Nat)
  | modelCheckpoint (filepath : String) (monitor : String) (save_best_only : Bool)
deriving DecidableEq, Repr

/-- The `callbacks_list` built inside `train` for a given `self.log_dir`. -/
def callbacks_list (log_dir : String) : List Callback :=
  [Callback.earlyStopping "val_loss" 10 true,
   Callback.reduceLROnPlateau "val_loss" (5 / 10) 5 (1 / 100000),
   Callback.tensorBoard log_dir 1 0,
   Callback.modelCheckpoint (pathJoin log_dir "best_model.keras") "val_accuracy" true]

/-- The four callback kinds the spec names. -/
inductive CbKind where
  | earlyStoppingK
  | reduceLRK
  | tensorBoardK
  | checkpointK
deriving DecidableEq, Repr

def callbackKind : Callback → CbKind
  | Callback.earlyStopping _ _ _ => CbKind.earlyStoppingK
  | Callback.reduceLROnPlateau _ _ _ _ => CbKind.reduceLRK
  | Callback.tensorBoard _ _ _ => CbKind.tensorBoardK
  | Callback.modelCheckpoint _ _ _ => CbKind.checkpointK

/-- One step of `train`'s body, in execution order: the `prepare_dataset`
call, the model assembly and compilation inside `build_model` (only reached
when `self.model is None`), and the single `self.model.fit` call with its
callback list. -/
inductive TrainStep where
  | prepareData
  | assembleModel
  | compileModel
  | fitCall (cbs : List Callback)
deriving DecidableEq, Repr

/-- `FacialDetectionModel.train` (notebook lines 102-159): prepares the
dataset, builds the model if not already built (with `build_model`'s default
learning rate — `train` exposes no learning-rate parameter), then makes a
single framework `fit` call with the callback list, returning the new state,
the history `fit` returned, and the executed step trace.  The framework
training loop itself is external and passed in as `fit`. -/
def train {H : Type} (fit : PreparedData → Nat → Nat → List Callback → H)
    (self : FDM) (d : Dataset) (epochs batch_size : Nat) :
    FDM × H × List TrainStep :=
  let p := prepare_dataset self.num_classes d
  let sb : FDM × List TrainStep :=
    match self.model with
    | none => (build_model self default_learning_rate,
        [TrainStep.assembleModel, TrainStep.compileModel])
    | some _ => (self, [])
  let cbs := callbacks_list self.log_dir
  let h := fit p epochs batch_size cbs
  (sb.1, h, TrainStep.prepareData :: (sb.2 ++ [TrainStep.fitCall cbs]))

/-- An instance that has already built its model: the state of `facial_model`
after a first `train` call (input shape `(512,)`, 10 classes, default
`./logs`). -/
def fdmBuilt : FDM :=
  FDM.mk (some (mkModelState [512] 10 default_learning_rate)) [512] 10 "./logs"

/-- A trivial stand-in for the framework training loop, for concrete
instantiations. -/
def fitUnit : PreparedData → Nat → Nat → List Callback → Unit :=
  fun _ _ _ _ => ()

/-- C3 counterexample: on an instance whose model is already built, `train`
does not perform model assembly (nor compilation) — its step trace contains
no `assembleModel` step — so "every call to train performs (a) array
conversion, (b) model assembly, (c) compilation, (d) fit" is false as
stated. -/
theorem train_rebuild_counterexample :
    ((train fitUnit fdmBuilt ds0 100 8).2.2.contains TrainStep.assembleModel) = false ∧
    ((train fitUnit fdmBuilt ds0 100 8).2.2.contains TrainStep.compileModel) = false ∧
    (train fitUnit fdmBuilt ds0 100 8).2.2
      = [TrainStep.prepareData, TrainStep.fitCall (callbacks_list "./logs")] := by
  refine ⟨?_, ?_, rfl⟩ <;> decide

/-- C3 amended: every call to `train` performs array conversion and one-hot
label encoding and then a single framework `fit` call passing exactly four
callbacks (early stopping, learning-rate decay, TensorBoard logging, model
checkpointing), and returns `fit`'s history; model assembly and compilation
happen in between exactly when no model has been built yet on the
instance. -/
theorem train_sequence_amended {H : Type}
    (fit : PreparedData → Nat → Nat → List Callback → H)
    (self : FDM) (d : Dataset) (epochs batch_size : Nat) :
    (train fit self d epochs batch_size).2.2
      = TrainStep.prepareData ::
        ((match self.model with
          | none => [TrainStep.assembleModel, TrainStep.compileModel]
          | some _ => [])
          ++ [TrainStep.fitCall (callbacks_list self.log_dir)]) ∧
    (callbacks_list self.log_dir).length = 4 ∧
    (callbacks_list self.log_dir).map callbackKind
      = [CbKind.earlyStoppingK, CbKind.reduceLRK, CbKind.tensorBoardK,
         CbKind.checkpointK] ∧
    (train fit self d epochs batch_size).2.1
      = fit (prepare_dataset self.num_classes d) epochs batch_size
          (callbacks_list self.log_dir) := by
  cases hm : self.model <;>
    exact ⟨by simp [train, hm], rfl, rfl, by simp [train, hm]⟩

/-- C9: `train` builds and compiles the model exactly when `self.model` is
`None`, always with `build_model`'s default learning rate `1e-3` (`train`
takes no learning-rate argument), and otherwise reuses the existing model
unchanged. -/
theorem train_build_once {H : Type}
    (fit : PreparedData → Nat → Nat → List Callback → H)
    (self : FDM) (d : Dataset) (epochs batch_size : Nat) :
    (train fit self d epochs batch_size).1
      = (match self.model with
         | none => build_model self default_learning_rate
         | some _ => self) ∧
    (train fit self d epochs batch_size).1.model
      = some (self.model.getD
          (mkModelState self.input_shape self.num_classes default_learning_rate)) ∧
    default_learning_rate = 1 / 1000 ∧
    (TrainStep.assembleModel ∈ (train fit self d epochs batch_size).2.2
      ↔ self.model = none) := by
  cases hm : self.model <;>
    refine ⟨by simp [train, hm], ?_, rfl, by simp [train, hm]⟩ <;>
    simp [train, hm, build_model]

/-- `prepare_dataset` with the dataset's post-state made explicit: the method
body (notebook lines 44-61) only reads `dataset['train']` / `dataset['test']`
columns and assigns local variables; it contains no store into `dataset`, so
the dataset it leaves behind is the one it received. -/
def prepare_dataset_full (num_classes : Nat) (d : Dataset) : PreparedData × Dataset :=
  (prepare_dataset num_classes d, d)

/-- C5: `prepare_dataset` consumes the dataset read-only — after it returns,
the dataset and its train/test split structure are unchanged. -/
theorem prepare_dataset_readonly (num_classes : Nat) (d : Dataset) :
    (prepare_dataset_full num_classes d).2 = d ∧
    (prepare_dataset_full num_classes d).2.train = d.train ∧
    (prepare_dataset_full num_classes d).2.test = d.test ∧
    (prepare_dataset_full num_classes d).1 = prepare_dataset num_classes d :=
  ⟨rfl, rfl, rfl, rfl⟩

/-- `os.makedirs(path, exist_ok=ok)` over a filesystem modelled as the list
of existing directories (external library call, modelled from its documented
semantics): creates the directory; with `exist_ok=True` an already existing
directory is not an error, with `exist_ok=False` it raises
`FileExistsError`. -/
def makedirs (fs : List String) (path : String) (exist_ok : Bool) :
    Except String (List String) :=
  if path ∈ fs then
    (if exist_ok then Except.ok fs else Except.error "FileExistsError")
  else Except.ok (path :: fs)

/-- `FacialDetectionModel.__init__` (notebook lines 27-42) with the
filesystem explicit: sets the four attributes and calls
`os.makedirs(log_dir, exist_ok=True)`. -/
def initFDM (input_shape : List Nat) (num_classes : Nat) (log_dir : String)
    (fs : List String) : Except String (FDM × List String) :=
  match makedirs fs log_dir true with
  | Except.error e => Except.error e
  | Except.ok fs1 => Except.ok (FDM.mk none input_shape num_classes log_dir, fs1)

/-- C8: for every `log_dir` and every prior filesystem state, `__init__`
succeeds (whether or not the log directory already existed) and afterwards
the log directory exists; the fresh instance starts with no model and the
given configuration. -/
theorem init_creates_log_dir (input_shape : List Nat) (num_classes : Nat)
    (log_dir : String) (fs : List String) :
    ∃ fs1, initFDM input_shape num_classes log_dir fs
        = Except.ok (FDM.mk none input_shape num_classes log_dir, fs1) ∧
      log_dir ∈ fs1 := by
  by_cases hmem : log_dir ∈ fs
  · exact ⟨fs, by simp [initFDM, makedirs, hmem], hmem⟩
  · exact ⟨log_dir :: fs, by simp [initFDM, makedirs, hmem], List.mem_cons_self _ _⟩

/-- The file paths a single training callback is configured to write to: the
TensorBoard callback writes its event files under its `log_dir`, the
checkpoint callback writes its `filepath`; the other two callbacks write
nothing. -/
def callbackArtifact : Callback → List String
  | Callback.tensorBoard dir _ _ => [dir]
  | Callback.modelCheckpoint p _ _ => [p]
  | _ => []

/-- All file locations configured by `train`'s callback list. -/
def train_artifacts (log_dir : String) : List String :=
  ((callbacks_list log_dir).map callbackArtifact).flatten

/-- The path `plot_training_history` passes to `plt.savefig`. -/
def savefig_path : String := "training_history.png"

/-- C6: the only externally visible file artifacts the class configures are
the TensorBoard event files under the log directory, the checkpoint file
`best_model.keras` joined under the log directory, and the single plot file
`training_history.png`; the repository code supplies only these paths and
names. -/
theorem artifact_paths_spec (log_dir : String) :
    train_artifacts log_dir = [log_dir, pathJoin log_dir "best_model.keras"] ∧
    (∀ c ∈ callbacks_list log_dir, ∀ p ∈ callbackArtifact c,
      p = log_dir ∨ p = pathJoin log_dir "best_model.keras") ∧
    savefig_path = "training_history.png" := by
  refine ⟨rfl, ?_, rfl⟩
  intro c hc p hp
  fin_cases hc <;> simp [callbackArtifact] at hp <;> simp [hp]

theorem artifact_paths_spec_witness :
    ("./logs" : String) = "./logs"
      ∨ ("./logs" : String) = pathJoin "./logs" "best_model.keras" :=
  (artifact_paths_spec "./logs").2.1 (Callback.tensorBoard "./logs" 1 0)
    (by simp [callbacks_list]) "./logs" (by simp [callbackArtifact])

/-- The six methods of `FacialDetectionModel`. -/
inductive Method where
  | initM
  | prepareDatasetM
  | buildModelM
  | trainM
  | plotTrainingHistoryM
  | runTensorboardM
deriving DecidableEq, Repr

/-- A process-level effect of a method body: directory creation, a call into
the ML framework or a library, a configured file write, spawning a child
process (`subprocess.Popen`), or console output. -/
inductive Effect where
  | mkdir (path : String)
  | framework (callee : String)
  | fileWrite (path : String)
  | spawn (cmd : List String)
  | consoleOut
deriving DecidableEq, Repr

/-- The process-level effects of each method body, in source order (for
`train`, the first-call path that reaches `build_model`).  `run_tensorboard`
(notebook lines 193-208) calls
`subprocess.Popen(['tensorboard', '--logdir', self.log_dir])`, prints a
message, and returns the process handle without waiting on it. -/
def methodEffects (log_dir : String) : Method → List Effect
  | Method.initM => [Effect.mkdir log_dir]
  | Method.prepareDatasetM =>
      [Effect.framework "np.array", Effect.framework "np.array",
       Effect.framework "np.array", Effect.framework "np.array",
       Effect.framework "to_categorical", Effect.framework "to_categorical"]
  | Method.buildModelM =>
      [Effect.framework "Sequential", Effect.framework "Adam",
       Effect.framework "compile", Effect.consoleOut]
  | Method.trainM =>
      [Effect.framework "np.array", Effect.framework "np.array",
       Effect.framework "np.array", Effect.framework "np.array",
       Effect.framework "to_categorical", Effect.framework "to_categorical",
       Effect.framework "Sequential", Effect.framework "Adam",
       Effect.framework "compile", Effect.consoleOut,
       Effect.framework "fit"]
  | Method.plotTrainingHistoryM =>
      [Effect.framework "matplotlib", Effect.fileWrite "training_history.png"]
  | Method.runTensorboardM =>
      [Effect.spawn ["tensorboard", "--logdir", log_dir], Effect.consoleOut]

/-- Whether an effect starts a concurrently running child process. -/
def isSpawn : Effect → Bool
  | Effect.spawn _ => true
  | _ => false

/-- C7 counterexample: the claim says no operation of the class introduces
concurrency, but `run_tensorboard` spawns a TensorBoard server child process
via the non-blocking `subprocess.Popen` and returns its handle. -/
theorem concurrency_claim_counterexample :
    ((methodEffects "./logs" Method.runTensorboardM).any isSpawn) = true ∧
    (methodEffects "./logs" Method.runTensorboardM)
      = [Effect.spawn ["tensorboard", "--logdir", "./logs"], Effect.consoleOut] :=
  ⟨by simp [methodEffects, isSpawn], rfl⟩

/-- C7 amended: every operation of the class except `run_tensorboard` is a
single synchronous sequence of framework calls spawning no concurrent
activity; `run_tensorboard` alone spawns one child process, the TensorBoard
server, and the only shared mutable state is the one model object. -/
theorem concurrency_amended (log_dir : String) (m : Method)
    (hm : m ≠ Method.runTensorboardM) :
    ((methodEffects log_dir m).any isSpawn) = false ∧
    (methodEffects log_dir Method.runTensorboardM).any isSpawn = true ∧
    ∀ e ∈ methodEffects log_dir Method.runTensorboardM,
      isSpawn e = true → e = Effect.spawn ["tensorboard", "--logdir", log_dir] := by
  refine ⟨?_, by simp [methodEffects, isSpawn], ?_⟩
  · cases m
    case runTensorboardM => exact absurd rfl hm
    all_goals simp [methodEffects, isSpawn]
  · intro e he hs
    simp only [methodEffects, List.mem_cons, List.not_mem_nil, or_false] at he
    rcases he with h | h
    · exact h
    · subst h; exact absurd hs (by simp [isSpawn])

theorem concurrency_amended_witness :
    ((methodEffects "./logs" Method.trainM).any isSpawn) = false ∧
    (methodEffects "./logs" Method.runTensorboardM).any isSpawn = true ∧
    ∀ e ∈ methodEffects "./logs" Method.runTensorboardM,
      isSpawn e = true → e = Effect.spawn ["tensorboard", "--logdir", "./logs"] :=
  concurrency_amended "./logs" Method.trainM (by decide)

/-- The `history.history` dictionary returned by `fit`: metric name to
per-epoch values. -/
def History : Type := List (String × List Rat)

/-- Python dictionary access `history.history[k]`: the value at key `k`, or
a `KeyError` naming the key when it is absent. -/
def historyGet (h : History) (k : String) : Except String (List Rat) :=
  match h.find? (fun kv => kv.1 == k) with
  | some kv => Except.ok kv.2
  | none => Except.error ("KeyError: " ++ k)

/-- Whether the history dictionary carries key `k`. -/
def hasKey (h : History) (k : String) : Bool :=
  (h.find? (fun kv => kv.1 == k)).isSome

/-- `FacialDetectionModel.plot_training_history` (notebook lines 161-191)
reduced to its fallible dictionary accesses and its file output: it reads
`history.history['accuracy']`, `['val_accuracy']`, `['loss']`,
`['val_loss']` in source order (each subscript may raise `KeyError`), and
on success writes the single file `training_history.png`; the matplotlib
drawing calls in between neither touch the dictionary nor write files. -/
def plot_training_history (h : History) : Except String (List String) :=
  match historyGet h "accuracy" with
  | Except.error e => Except.error e
  | Except.ok _ =>
    match historyGet h "val_accuracy" with
    | Except.error e => Except.error e
    | Except.ok _ =>
      match historyGet h "loss" with
      | Except.error e => Except.error e
      | Except.ok _ =>
        match historyGet h "val_loss" with
        | Except.error e => Except.error e
        | Except.ok _ => Except.ok [savefig_path]

theorem historyGet_ok_of_hasKey (h : History) (k : String) (hk : hasKey h k = true) :
    ∃ v, historyGet h k = Except.ok v := by
  unfold hasKey at hk
  unfold historyGet
  cases hfind : h.find? (fun kv => kv.1 == k) with
  | none => rw [hfind] at hk; simp at hk
  | some kv => exact ⟨kv.2, rfl⟩

theorem historyGet_err_of_not_hasKey (h : History) (k : String)
    (hk : hasKey h k = false) :
    historyGet h k = Except.error ("KeyError: " ++ k) := by
  unfold hasKey at hk
  unfold historyGet
  cases hfind : h.find? (fun kv => kv.1 == k) with
  | none => rfl
  | some kv => rw [hfind] at hk; simp at hk

/-- C10: `plot_training_history` raises a propagated `KeyError` whenever the
history lacks any of the keys `accuracy`, `val_accuracy`, `loss`,
`val_loss`; when all four keys are present it writes exactly the one file
`training_history.png` and returns without error. -/
theorem plot_history_keyerror (h : History) :
    (hasKey h "accuracy" = true → hasKey h "val_accuracy" = true →
      hasKey h "loss" = true → hasKey h "val_loss" = true →
      plot_training_history h = Except.ok [savefig_path]) ∧
    (∀ k, k ∈ (["accuracy", "val_accuracy", "loss", "val_loss"] : List String) →
      hasKey h k = false →
      ∃ k1, k1 ∈ (["accuracy", "val_accuracy", "loss", "val_loss"] : List String) ∧
        hasKey h k1 = false ∧
        plot_training_history h = Except.error ("KeyError: " ++ k1)) := by
  constructor
  · intro h1 h2 h3 h4
    obtain ⟨v1, e1⟩ := historyGet_ok_of_hasKey h "accuracy" h1
    obtain ⟨v2, e2⟩ := historyGet_ok_of_hasKey h "val_accuracy" h2
    obtain ⟨v3, e3⟩ := historyGet_ok_of_hasKey h "loss" h3
    obtain ⟨v4, e4⟩ := historyGet_ok_of_hasKey h "val_loss" h4
    simp [plot_training_history, e1, e2, e3, e4]
  · intro k hk hmiss
    by_cases h1 : hasKey h "accuracy" = true
    all_goals simp only [Bool.not_eq_true] at *
    case neg =>
      exact ⟨"accuracy", by simp, h1,
        by simp [plot_training_history, historyGet_err_of_not_hasKey h _ h1]⟩
    obtain ⟨v1, e1⟩ := historyGet_ok_of_hasKey h "accuracy" h1
    by_cases h2 : hasKey h "val_accuracy" = true
    all_goals simp only [Bool.not_eq_true] at *
    case neg =>
      exact ⟨"val_accuracy", by simp, h2,
        by simp [plot_training_history, e1, historyGet_err_of_not_hasKey h _ h2]⟩
    obtain ⟨v2, e2⟩ := historyGet_ok_of_hasKey h "val_accuracy" h2
    by_cases h3 : hasKey h "loss" = true
    all_goals simp only [Bool.not_eq_true] at *
    case neg =>
      exact ⟨"loss", by simp, h3,
        by simp [plot_training_history, e1, e2, historyGet_err_of_not_hasKey h _ h3]⟩
    obtain ⟨v3, e3⟩ := historyGet_ok_of_hasKey h "loss" h3
    by_cases h4 : hasKey h "val_loss" = true
    all_goals simp only [Bool.not_eq_true] at *
    case neg =>
      exact ⟨"val_loss", by simp, h4,
        by simp [plot_training_history, e1, e2, e3,
          historyGet_err_of_not_hasKey h _ h4]⟩
    exfalso
    simp only [List.mem_cons, List.not_mem_nil, or_false] at hk
    rcases hk with h | h | h | h <;> subst h <;> simp_all

/-- A history carrying all four plotted metrics. -/
def hAll : History :=
  [("accuracy", [1 / 2, 3 / 4]), ("val_accuracy", [1 / 2, 2 / 3]),
   ("loss", [2, 1]), ("val_loss", [3, 2])]

/-- A history missing every plotted metric. -/
def hMiss : History := [("precision", [1])]

theorem plot_history_keyerror_witness :
    plot_training_history hAll = Except.ok [savefig_path] ∧
    (∃ k1, k1 ∈ (["accuracy", "val_accuracy", "loss", "val_loss"] : List String) ∧
      hasKey hMiss k1 = false ∧
      plot_training_history hMiss = Except.error ("KeyError: " ++ k1)) :=
  ⟨(plot_history_keyerror hAll).1 (by decide) (by decide) (by decide) (by decide),
   (plot_history_keyerror hMiss).2 "accuracy" (by simp) (by decide)⟩

/-- The `os` library calls used by `__init__`, as a fallible oracle. -/
structure OsOps (E : Type) where
  makedirsX : String → Bool → Except E Unit

/-- `__init__` over a fallible `os.makedirs`: the body wraps the call in no
`try`/`except`, so its outcome is the method's outcome. -/
def initX {E : Type} (oso : OsOps E) (input_shape : List Nat) (num_classes : Nat)
    (log_dir : String) : Except E FDM :=
  match oso.makedirsX log_dir true with
  | Except.error e => Except.error e
  | Except.ok _ => Except.ok (FDM.mk none input_shape num_classes log_dir)

/-- The numpy/Keras conversion calls made by `prepare_dataset`, as fallible
oracles (`np.array` on an embedding column, `np.array` on a label column,
`tf.keras.utils.to_categorical`). -/
structure NpOps (E : Type) where
  np_array_emb : List (List Int) → Except E (List (List Int))
  np_array_lab : List Nat → Except E (List Nat)
  to_cat : List Nat → Nat → Except E (List (List Nat))

/-- `prepare_dataset` over fallible external calls, in the body's source
order: four array conversions, then the two one-hot encodings; there is no
handler around any of them. -/
def prepare_datasetX {E : Type} (np : NpOps E) (num_classes : Nat) (d : Dataset) :
    Except E PreparedData :=
  match np.np_array_emb d.train.embedding with
  | Except.error e => Except.error e
  | Except.ok xtr =>
    match np.np_array_lab d.train.label with
    | Except.error e => Except.error e
    | Except.ok ytr =>
      match np.np_array_emb d.test.embedding with
      | Except.error e => Except.error e
      | Except.ok xte =>
        match np.np_array_lab d.test.label with
        | Except.error e => Except.error e
        | Except.ok yte =>
          match np.to_cat ytr num_classes with
          | Except.error e => Except.error e
          | Except.ok ytr1 =>
            match np.to_cat yte num_classes with
            | Except.error e => Except.error e
            | Except.ok yte1 => Except.ok (PreparedData.mk xtr ytr1 xte yte1)

/-- The Keras calls made by `build_model`, as fallible oracles: compiling
the assembled model (Sequential/Adam/compile) and printing the summary. -/
structure KerasOps (E : Type) where
  compileX : ModelState → Except E Unit
  summaryX : Except E Unit

/-- `build_model` over fallible external calls; no handler in the body. -/
def build_modelX {E : Type} (ks : KerasOps E) (self : FDM) (lr : Rat) :
    Except E FDM :=
  match ks.compileX (mkModelState self.input_shape self.num_classes lr) with
  | Except.error e => Except.error e
  | Except.ok _ =>
    match ks.summaryX with
    | Except.error e => Except.error e
    | Except.ok _ =>
      Except.ok (FDM.mk (some (mkModelState self.input_shape self.num_classes lr))
        self.input_shape self.num_classes self.log_dir)

/-- The framework training loop `self.model.fit`, as a fallible oracle. -/
structure FitOps (E H : Type) where
  fitX : PreparedData → Nat → Nat → List Callback → Except E H

/-- `train` over fallible external calls: prepare, conditional build, one
`fit` call; no handler anywhere in the body. -/
def trainX {E H : Type} (np : NpOps E) (ks : KerasOps E) (fo : FitOps E H)
    (self : FDM) (d : Dataset) (epochs batch_size : Nat) :
    Except E (FDM × H) :=
  match prepare_datasetX np self.num_classes d with
  | Except.error e => Except.error e
  | Except.ok p =>
    match (match self.model with
           | none => build_modelX ks self default_learning_rate
           | some _ => Except.ok self) with
    | Except.error e => Except.error e
    | Except.ok self1 =>
      match fo.fitX p epochs batch_size (callbacks_list self.log_dir) with
      | Except.error e => Except.error e
      | Except.ok h => Except.ok (self1, h)

/-- The matplotlib calls made by `plot_training_history` and the dictionary
subscripts on `history.history`, as fallible oracles. -/
structure PltOps (E : Type) where
  figureX : Nat → Nat → Except E Unit
  subplotX : Nat → Nat → Nat → Except E Unit
  getX : String → Except E (List Rat)
  plotX : List Rat → Except E Unit
  titleX : String → Except E Unit
  ylabelX : String → Except E Unit
  xlabelX : String → Except E Unit
  legendX : List String → String → Except E Unit
  tightLayoutX : Except E Unit
  savefigX : String → Except E Unit
  closeX : Except E Unit

/-- Sequencing of two unhandled fallible calls: the first failure is the
result. -/
def seqE {E α : Type} (a : Except E Unit) (b : Except E α) : Except E α :=
  match a with
  | Except.error e => Except.error e
  | Except.ok _ => b

/-- `plot_training_history` over fallible external calls, in the body's
source order (notebook lines 161-191); no handler in the body. -/
def plot_training_historyX {E : Type} (pl : PltOps E) : Except E Unit :=
  seqE (pl.figureX 10 5) <|
  seqE (pl.subplotX 1 2 1) <|
  match pl.getX "accuracy" with
  | Except.error e => Except.error e
  | Except.ok a =>
    seqE (pl.plotX a) <|
    match pl.getX "val_accuracy" with
    | Except.error e => Except.error e
    | Except.ok va =>
      seqE (pl.plotX va) <|
      seqE (pl.titleX "Model Accuracy") <|
      seqE (pl.ylabelX "Accuracy") <|
      seqE (pl.xlabelX "Epoch") <|
      seqE (pl.legendX ["Train", "Validation"] "lower right") <|
      seqE (pl.subplotX 1 2 2) <|
      match pl.getX "loss" with
      | Except.error e => Except.error e
      | Except.ok l =>
        seqE (pl.plotX l) <|
        match pl.getX "val_loss" with
        | Except.error e => Except.error e
        | Except.ok vl =>
          seqE (pl.plotX vl) <|
          seqE (pl.titleX "Model Loss") <|
          seqE (pl.ylabelX "Loss") <|
          seqE (pl.xlabelX "Epoch") <|
          seqE (pl.legendX ["Train", "Validation"] "upper right") <|
          seqE pl.tightLayoutX <|
          seqE (pl.savefigX "training_history.png") <|
          pl.closeX

/-- All purely decorative matplotlib calls succeed (isolates one failing
call at a time in the propagation statements). -/
def pltDecorOk {E : Type} (pl : PltOps E) : Prop :=
  (∀ a b, pl.figureX a b = Except.ok ()) ∧
  (∀ a b c, pl.subplotX a b c = Except.ok ()) ∧
  (∀ v, pl.plotX v = Except.ok ()) ∧
  (∀ s, pl.titleX s = Except.ok ()) ∧
  (∀ s, pl.ylabelX s = Except.ok ()) ∧
  (∀ s, pl.xlabelX s = Except.ok ()) ∧
  (∀ ls s, pl.legendX ls s = Except.ok ()) ∧
  pl.tightLayoutX = Except.ok () ∧
  pl.closeX = Except.ok ()

/-- C4: for every operation of the class, a failure raised inside an
external framework or library call propagates to the caller unchanged — the
method's result is exactly the error of the first failing call; no operation
catches, retries, recovers from, or translates it.  Grouped by operation:
`__init__`; `prepare_dataset` (each of its six calls as the first failure);
`build_model` (compile, then summary); `train` (prepare failure, build
failure, fit failure with a prebuilt model, fit failure after a fresh
build); `plot_training_history` (figure, each dictionary subscript in order,
savefig; and the all-succeed case returning without error). -/
theorem no_error_translation {E H : Type} (oso : OsOps E) (np : NpOps E)
    (ks : KerasOps E) (fo : FitOps E H) (pl : PltOps E)
    (input_shape : List Nat) (num_classes : Nat) (log_dir : String)
    (self : FDM) (d : Dataset) (epochs batch_size : Nat) (lr : Rat) (e : E) :
    (oso.makedirsX log_dir true = Except.error e →
      initX oso input_shape num_classes log_dir = Except.error e) ∧
    ((np.np_array_emb d.train.embedding = Except.error e →
        prepare_datasetX np num_classes d = Except.error e) ∧
     (∀ xtr, np.np_array_emb d.train.embedding = Except.ok xtr →
        np.np_array_lab d.train.label = Except.error e →
        prepare_datasetX np num_classes d = Except.error e) ∧
     (∀ xtr ytr, np.np_array_emb d.train.embedding = Except.ok xtr →
        np.np_array_lab d.train.label = Except.ok ytr →
        np.np_array_emb d.test.embedding = Except.error e →
        prepare_datasetX np num_classes d = Except.error e) ∧
     (∀ xtr ytr xte, np.np_array_emb d.train.embedding = Except.ok xtr →
        np.np_array_lab d.train.label = Except.ok ytr →
        np.np_array_emb d.test.embedding = Except.ok xte →
        np.np_array_lab d.test.label = Except.error e →
        prepare_datasetX np num_classes d = Except.error e) ∧
     (∀ xtr ytr xte yte, np.np_array_emb d.train.embedding = Except.ok xtr →
        np.np_array_lab d.train.label = Except.ok ytr →
        np.np_array_emb d.test.embedding = Except.ok xte →
        np.np_array_lab d.test.label = Except.ok yte →
        np.to_cat ytr num_classes = Except.error e →
        prepare_datasetX np num_classes d = Except.error e) ∧
     (∀ xtr ytr xte yte ytr1, np.np_array_emb d.train.embedding = Except.ok xtr →
        np.np_array_lab d.train.label = Except.ok ytr →
        np.np_array_emb d.test.embedding = Except.ok xte →
        np.np_array_lab d.test.label = Except.ok yte →
        np.to_cat ytr num_classes = Except.ok ytr1 →
        np.to_cat yte num_classes = Except.error e →
        prepare_datasetX np num_classes d = Except.error e)) ∧
    ((ks.compileX (mkModelState self.input_shape self.num_classes lr) = Except.error e →
        build_modelX ks self lr = Except.error e) ∧
     (ks.compileX (mkModelState self.input_shape self.num_classes lr) = Except.ok () →
        ks.summaryX = Except.error e →
        build_modelX ks self lr = Except.error e)) ∧
    ((prepare_datasetX np self.num_classes d = Except.error e →
        trainX np ks fo self d epochs batch_size = Except.error e) ∧
     (∀ p, prepare_datasetX np self.num_classes d = Except.ok p →
        self.model = none →
        build_modelX ks self default_learning_rate = Except.error e →
        trainX np ks fo self d epochs batch_size = Except.error e) ∧
     (∀ p m, prepare_datasetX np self.num_classes d = Except.ok p →
        self.model = some m →
        fo.fitX p epochs batch_size (callbacks_list self.log_dir) = Except.error e →
        trainX np ks fo self d epochs batch_size = Except.error e) ∧
     (∀ p self1, prepare_datasetX np self.num_classes d = Except.ok p →
        self.model = none →
        build_modelX ks self default_learning_rate = Except.ok self1 →
        fo.fitX p epochs batch_size (callbacks_list self.log_dir) = Except.error e →
        trainX np ks fo self d epochs batch_size = Except.error e)) ∧
    ((pl.figureX 10 5 = Except.error e →
        plot_training_historyX pl = Except.error e) ∧
     (pltDecorOk pl → pl.getX "accuracy" = Except.error e →
        plot_training_historyX pl = Except.error e) ∧
     (pltDecorOk pl → ∀ a, pl.getX "accuracy" = Except.ok a →
        pl.getX "val_accuracy" = Except.error e →
        plot_training_historyX pl = Except.error e) ∧
     (pltDecorOk pl → ∀ a va, pl.getX "accuracy" = Except.ok a →
        pl.getX "val_accuracy" = Except.ok va →
        pl.getX "loss" = Except.error e →
        plot_training_historyX pl = Except.error e) ∧
     (pltDecorOk pl → ∀ a va l, pl.getX "accuracy" = Except.ok a →
        pl.getX "val_accuracy" = Except.ok va →
        pl.getX "loss" = Except.ok l →
        pl.getX "val_loss" = Except.error e →
        plot_training_historyX pl = Except.error e) ∧
     (pltDecorOk pl → ∀ a va l vl, pl.getX "accuracy" = Except.ok a →
        pl.getX "val_accuracy" = Except.ok va →
        pl.getX "loss" = Except.ok l →
        pl.getX "val_loss" = Except.ok vl →
        pl.savefigX "training_history.png" = Except.error e →
        plot_training_historyX pl = Except.error e) ∧
     (pltDecorOk pl → ∀ a va l vl, pl.getX "accuracy" = Except.ok a →
        pl.getX "val_accuracy" = Except.ok va →
        pl.getX "loss" = Except.ok l →
        pl.getX "val_loss" = Except.ok vl →
        pl.savefigX "training_history.png" = Except.ok () →
        plot_training_historyX pl = Except.ok ())) := by
  refine ⟨?_, ⟨?_, ?_, ?_, ?_, ?_, ?_⟩, ⟨?_, ?_⟩, ⟨?_, ?_, ?_, ?_⟩,
    ⟨?_, ?_, ?_, ?_, ?_, ?_, ?_⟩⟩
  · intro h; simp [initX, h]
  · intro h; simp [prepare_datasetX, h]
  · intro xtr h1 h2; simp [prepare_datasetX, h1, h2]
  · intro xtr ytr h1 h2 h3; simp [prepare_datasetX, h1, h2, h3]
  · intro xtr ytr xte h1 h2 h3 h4; simp [prepare_datasetX, h1, h2, h3, h4]
  · intro xtr ytr xte yte h1 h2 h3 h4 h5
    simp [prepare_datasetX, h1, h2, h3, h4, h5]
  · intro xtr ytr xte yte ytr1 h1 h2 h3 h4 h5 h6
    simp [prepare_datasetX, h1, h2, h3, h4, h5, h6]
  · intro h; simp [build_modelX, h]
  · intro h1 h2; simp [build_modelX, h1, h2]
  · intro h; simp [trainX, h]
  · intro p h1 h2 h3; simp [trainX, h1, h2, h3]
  · intro p m h1 h2 h3; simp [trainX, h1, h2, h3]
  · intro p self1 h1 h2 h3 h4; simp [trainX, h1, h2, h3, h4]
  · intro h; simp [plot_training_historyX, seqE, h]
  · intro hd hg
    obtain ⟨hf, hs, hp, ht, hy, hx, hl, htl, hc⟩ := hd
    simp [plot_training_historyX, seqE, hf, hs, hg]
  · intro hd a h1 h2
    obtain ⟨hf, hs, hp, ht, hy, hx, hl, htl, hc⟩ := hd
    simp [plot_training_historyX, seqE, hf, hs, hp, h1, h2]
  · intro hd a va h1 h2 h3
    obtain ⟨hf, hs, hp, ht, hy, hx, hl, htl, hc⟩ := hd
    simp [plot_training_historyX, seqE, hf, hs, hp, ht, hy, hx, hl, h1, h2, h3]
  · intro hd a va l h1 h2 h3 h4
    obtain ⟨hf, hs, hp, ht, hy, hx, hl, htl, hc⟩ := hd
    simp [plot_training_historyX, seqE, hf, hs, hp, ht, hy, hx, hl, h1, h2, h3, h4]
  · intro hd a va l vl h1 h2 h3 h4 h5
    obtain ⟨hf, hs, hp, ht, hy, hx, hl, htl, hc⟩ := hd
    simp [plot_training_historyX, seqE, hf, hs, hp, ht, hy, hx, hl, htl, h1, h2,
      h3, h4, h5]
  · intro hd a va l vl h1 h2 h3 h4 h5
    obtain ⟨hf, hs, hp, ht, hy, hx, hl, htl, hc⟩ := hd
    simp [plot_training_historyX, seqE, hf, hs, hp, ht, hy, hx, hl, htl, hc, h1,
      h2, h3, h4, h5]

/-- An `os` oracle whose calls all succeed. -/
def osoOk : OsOps String := OsOps.mk (fun _ _ => Except.ok ())

/-- A numpy/Keras conversion oracle whose calls all succeed and compute the
actual conversions. -/
def npOk : NpOps String :=
  NpOps.mk (fun x => Except.ok x) (fun x => Except.ok x)
    (fun y n => Except.ok (y.map (to_categorical n)))

/-- A Keras compile/summary oracle whose calls all succeed. -/
def ksOk : KerasOps String := KerasOps.mk (fun _ => Except.ok ()) (Except.ok ())

/-- A framework training loop that raises (e.g. on a shape mismatch). -/
def foBoom : FitOps String Unit :=
  FitOps.mk (fun _ _ _ _ => Except.error "fit: shape mismatch")

/-- A matplotlib oracle whose calls all succeed. -/
def plOk : PltOps String :=
  PltOps.mk (fun _ _ => Except.ok ()) (fun _ _ _ => Except.ok ())
    (fun _ => Except.ok []) (fun _ => Except.ok ()) (fun _ => Except.ok ())
    (fun _ => Except.ok ()) (fun _ => Except.ok ()) (fun _ _ => Except.ok ())
    (Except.ok ()) (fun _ => Except.ok ()) (Except.ok ())

/-- A freshly initialised instance (input shape `(512,)`, 10 classes). -/
def fdm0 : FDM := FDM.mk none [512] 10 "./logs"

theorem no_error_translation_witness :
    trainX npOk ksOk foBoom fdm0 ds0 100 8 = Except.error "fit: shape mismatch" :=
  ((no_error_translation osoOk npOk ksOk foBoom plOk [512] 10 "./logs" fdm0 ds0
      100 8 default_learning_rate "fit: shape mismatch").2.2.2.1).2.2.2
    (prepare_dataset 10 ds0) (build_model fdm0 default_learning_rate)
    rfl rfl rfl rfl
